import Mathlib

/-!
Shallow embedding of the Home Assistant MCP client
(src/home_assistant_mcp/core/ha_client.py and core/config.py).

The client is modelled as a pure state record; async side effects
(HTTP requests, websocket connect/recv) are passed in as explicit
outcome parameters, and callbacks are modelled by identifiers plus a
behaviour function telling which callbacks raise.
-/

namespace HAClient

/-- JSON-ish entity state object as returned by the states endpoints.
`entity_id = none` models a dict missing the "entity_id" key (access
raises KeyError); `friendly_name` models
`state.get("attributes", \x7b\x7d).get("friendly_name", "")`, whose
default chain never raises, hence a plain String. -/
structure StateObj where
  entity_id : Option String
  friendly_name : String
  deriving Repr, DecidableEq

/-- The event dict carried inside an inbound "event" frame:
`event_type = none` models `event.get("event_type")` returning None;
`payload` abstracts the rest of the dict. -/
structure Event where
  event_type : Option String
  payload : Nat
  deriving Repr, DecidableEq

/-- An inbound websocket frame as parsed by `json.loads` in
`listen_events`: `ftype` is `event_data.get("type")`, `event` is
`event_data.get("event", \x7b\x7d)` (`none` models a missing key,
which Python defaults to the empty dict). -/
structure InboundFrame where
  ftype : Option String
  event : Option Event
  deriving Repr, DecidableEq

/-- The auth response frame parsed in `connect_websocket`:
`rtype` is `auth_response.get("type")`. -/
structure AuthResponse where
  rtype : Option String
  deriving Repr, DecidableEq

/-- Mutable state of `HomeAssistantClient`: `session` and `websocket`
are the two connection handles (presence only), `event_listeners` is
the insertion-ordered dict from event type to list of callbacks
(callbacks modelled by numeric identifiers), `message_id` is the
correlator counter `_message_id`. -/
structure ClientState where
  session : Option Unit
  websocket : Option Unit
  event_listeners : List (String × List Nat)
  message_id : Nat
  deriving Repr, DecidableEq

/-- `HomeAssistantClient.__init__`: no handles, empty listener dict,
counter at 0. -/
def initClient : ClientState :=
  { session := none, websocket := none, event_listeners := [], message_id := 0 }

/-- `HomeAssistantClient._get_next_message_id`: increment the counter
and return it. -/
def getNextMessageId (st : ClientState) : Nat × ClientState :=
  let m := st.message_id + 1
  (m, { st with message_id := m })

/-- N sequential calls of `_get_next_message_id`, collecting the
returned identifiers in order together with the final state. -/
def issueIds (st : ClientState) : Nat → List Nat × ClientState
  | 0 => ([], st)
  | n + 1 =>
    let (i, st1) := getNextMessageId st
    let (rest, st2) := issueIds st1 n
    (i :: rest, st2)

/-- `HomeAssistantClient.connect`: create the session handle when
absent; the websocket, listeners and counter are untouched. -/
def connect (st : ClientState) : ClientState :=
  match st.session with
  | none => { st with session := some () }
  | some _ => st

/-- `HomeAssistantClient.disconnect`: close and clear the websocket
handle if present, then close and clear the session handle if
present. Closing is a no-op on an absent handle. -/
def disconnect (st : ClientState) : ClientState :=
  let st1 :=
    match st.websocket with
    | some _ => { st with websocket := none }
    | none => st
  match st1.session with
  | some _ => { st1 with session := none }
  | none => st1

/-- `HomeAssistantClient.connect_websocket`. The two awaited effects
are passed in: `conn` is the outcome of `websockets.connect` (and of
sending the auth frame), `recv` the outcome of receiving and parsing
the first inbound frame. Inside the try block the websocket handle is
assigned on successful connect; the except block sets it back to None
and re-raises, so a failure returns `Except.error` with the handle
cleared. -/
def connectWebsocket (st : ClientState) (conn : Except String Unit)
    (recv : Except String AuthResponse) : Except String Unit × ClientState :=
  match conn with
  | .error e => (.error e, { st with websocket := none })
  | .ok _ =>
    match recv with
    | .error e => (.error e, { st with websocket := none })
    | .ok resp =>
      if resp.rtype = some "auth_ok" then
        (.ok (), { st with websocket := some () })
      else
        (.error "WebSocket auth failed", { st with websocket := none })

/-- First-match lookup in an insertion-ordered association list: the
semantics of a Python dict read on string keys (keys are unique, so
first match is the match). -/
def lookupKey (t : String) : List (String × List Nat) → Option (List Nat)
  | [] => none
  | (k, v) :: rest => if k = t then some v else lookupKey t rest

/-- Membership test of a key, the semantics of Python
`event_type in self.event_listeners`. -/
def hasKey (t : String) (ls : List (String × List Nat)) : Bool :=
  (lookupKey t ls).isSome

/-- `self.event_listeners[event_type].append(callback)`: append to the
value of an existing key, leaving everything else unchanged. -/
def appendAt (t : String) (c : Nat) : List (String × List Nat) → List (String × List Nat)
  | [] => []
  | (k, v) :: rest =>
    if k = t then (k, v ++ [c]) :: rest else (k, v) :: appendAt t c rest

/-- `HomeAssistantClient.add_event_listener`: create the key with an
empty list when absent (Python dicts keep insertion order, so the new
key goes at the end), then append the callback. -/
def addEventListener (ls : List (String × List Nat)) (t : String) (c : Nat) :
    List (String × List Nat) :=
  let ls1 := if hasKey t ls then ls else ls ++ [(t, [])]
  appendAt t c ls1

/-- One listener call: `await listener(event)` for callback `c`, where
`raises c = true` models a callback that raises. -/
def callListener (raises : Nat → Bool) (c : Nat) : Except String Unit :=
  if raises c then .error "listener error" else .ok ()

/-- The inner notify loop of `listen_events`: each registered callback
is invoked (first component: the invocation trace, in registration
order, each paired with the event it received), and a raising callback
has its exception caught and logged (second component: the log) rather
than stopping the loop. -/
def notifyListeners (raises : Nat → Bool) (ev : Event) :
    List Nat → List (Nat × Event) × List Nat
  | [] => ([], [])
  | c :: rest =>
    let logged :=
      match callListener raises c with
      | .ok _ => []
      | .error _ => [c]
    let (tr, errs) := notifyListeners raises ev rest
    ((c, ev) :: tr, logged ++ errs)

/-- Processing of one parsed inbound frame by the body of the
`async for` loop in `listen_events`: only frames whose "type" is
"event" are considered; the event dict defaults to empty when the
"event" key is missing; dispatch happens only when the event type is a
key of the listener dict (a None or unregistered type is dropped). -/
def handleFrame (ls : List (String × List Nat)) (raises : Nat → Bool)
    (frame : InboundFrame) : List (Nat × Event) × List Nat :=
  if frame.ftype = some "event" then
    let event := frame.event.getD { event_type := none, payload := 0 }
    match event.event_type with
    | some t =>
      match lookupKey t ls with
      | some cs => notifyListeners raises event cs
      | none => ([], [])
    | none => ([], [])
  else ([], [])

/-- The `async for message in self.websocket` loop of `listen_events`
over a finite inbound frame sequence, concatenating invocation traces
and error logs. Per-listener exceptions are caught inside
`handleFrame`, so every frame of the sequence is processed. -/
def listenLoop (ls : List (String × List Nat)) (raises : Nat → Bool) :
    List InboundFrame → List (Nat × Event) × List Nat
  | [] => ([], [])
  | f :: rest =>
    let (tr, errs) := handleFrame ls raises f
    let (tr2, errs2) := listenLoop ls raises rest
    (tr ++ tr2, errs ++ errs2)

/-- Outcome of one awaited HTTP request: either the transport raised
(connection refused, timeout, ...) or a response with a status code
arrived whose body parses to `β`. -/
inductive HttpOutcome (β : Type) where
  | transportError (msg : String)
  | response (status : Nat) (body : β)
  deriving Repr, DecidableEq

/-- `response.raise_for_status()`: raises for client and server error
statuses (400 and above), otherwise does nothing. -/
def raiseForStatus (status : Nat) : Except String Unit :=
  if 400 ≤ status then .error "HTTPError" else .ok ()

/-- `self.session.get(...)` / `self.session.post(...)` evaluated on the
session attribute: when the session is None the attribute access
raises (AttributeError on NoneType), otherwise the request runs and
its outcome is the given one. -/
def sessionRequest (st : ClientState) (out : HttpOutcome β) :
    Except String (HttpOutcome β) :=
  match st.session with
  | none => .error "AttributeError: NoneType has no attribute"
  | some _ => .ok out

/-- Non-overlapping left-to-right substring test on character lists,
the semantics of the Python `in` operator on strings (here only
emptiness of `old` at the borders matters: a nonempty pattern is
looked for at every position). -/
def containsSub (old : List Char) : List Char → Bool
  | [] => old.isEmpty
  | c :: rest => old.isPrefixOf (c :: rest) || containsSub old rest

/-- `filter_lower in s.lower()` for the two fields inspected by the
states filter. -/
def matchesFilter (fl : String) (eid : String) (fname : String) : Bool :=
  containsSub fl.toList eid.toLower.toList || containsSub fl.toList fname.toLower.toList

/-- The list comprehension in `get_states`: evaluates the predicate on
each state in order; a state dict missing "entity_id" raises KeyError,
aborting the comprehension. `fl` is the already-lowercased filter. -/
def filterStates (fl : String) : List StateObj → Except String (List StateObj)
  | [] => .ok []
  | st :: rest =>
    match st.entity_id with
    | none => .error "KeyError: entity_id"
    | some eid =>
      match filterStates fl rest with
      | .error e => .error e
      | .ok r =>
        .ok (if matchesFilter fl eid.toLower st.friendly_name then st :: r else r)

/-- `HomeAssistantClient.get_states`: the whole body sits in a
try/except returning [] on any exception. On a response,
`raise_for_status` runs, then the body is the parsed states list,
optionally filtered when the filter argument is truthy (a non-empty
string). -/
def getStates (st : ClientState) (out : HttpOutcome (List StateObj))
    (entity_filter : Option String) : List StateObj :=
  let attempt : Except String (List StateObj) :=
    match sessionRequest st out with
    | .error e => .error e
    | .ok (.transportError e) => .error e
    | .ok (.response status body) =>
      match raiseForStatus status with
      | .error e => .error e
      | .ok _ =>
        match entity_filter with
        | some f =>
          if f.length ≠ 0 then filterStates f.toLower body else .ok body
        | none => .ok body
  match attempt with
  | .ok v => v
  | .error _ => []

/-- `HomeAssistantClient.get_state`: 200 returns the parsed body, 404
logs and returns None, any other status goes through
`raise_for_status` (raising for 400+, otherwise falling off the end of
the function, which in Python returns None); any exception is caught
and None returned. -/
def getState (st : ClientState) (out : HttpOutcome StateObj) :
    Option StateObj :=
  let attempt : Except String (Option StateObj) :=
    match sessionRequest st out with
    | .error e => .error e
    | .ok (.transportError e) => .error e
    | .ok (.response status body) =>
      if status = 200 then .ok (some body)
      else if status = 404 then .ok none
      else
        match raiseForStatus status with
        | .error e => .error e
        | .ok _ => .ok none
  match attempt with
  | .ok v => v
  | .error _ => none

/-- `HomeAssistantClient.call_service`: posts the service call; a
non-error response returns True, any exception (transport failure,
`raise_for_status` on 400+) is caught and False returned. -/
def callService (st : ClientState) (out : HttpOutcome Unit) : Bool :=
  let attempt : Except String Bool :=
    match sessionRequest st out with
    | .error e => .error e
    | .ok (.transportError e) => .error e
    | .ok (.response status _) =>
      match raiseForStatus status with
      | .error e => .error e
      | .ok _ => .ok true
  match attempt with
  | .ok v => v
  | .error _ => false

/-- An HTTP outcome on which the request either failed at transport
level or came back with a non-success (client or server error)
status. -/
def isFailure : HttpOutcome β → Bool
  | .transportError _ => true
  | .response s _ => decide (400 ≤ s)

/-- Scanner for Python `str.replace(old, new)` on character lists: at
each position either consume a match of the (nonempty) pattern `old`
and emit `new`, or emit one character and advance. The fuel argument
only makes the recursion structural; it is never exhausted when it
starts at the length of the scanned list. -/
def replaceAllF (old new : List Char) : Nat → List Char → List Char
  | 0, s => s
  | fuel + 1, s =>
    match s with
    | [] => []
    | c :: rest =>
      if old ≠ [] ∧ old.isPrefixOf (c :: rest) then
        new ++ replaceAllF old new fuel ((c :: rest).drop old.length)
      else
        c :: replaceAllF old new fuel rest

/-- Python `str.replace(old, new)` for a nonempty pattern: substitute
every non-overlapping occurrence, scanning left to right. -/
def replaceAll (old new s : List Char) : List Char :=
  replaceAllF old new s.length s

/-- The websocket URL auto-derivation in `HomeAssistantConfig.__init__`:
`url.replace("https://", "wss://")` when the url starts with
"https://", otherwise `url.replace("http://", "ws://")`, with
"/api/websocket" appended. `str.replace` substitutes every occurrence
of the pattern, not only the scheme prefix. -/
def deriveWsUrl (url : List Char) : List Char :=
  if ("https://".toList).isPrefixOf url then
    replaceAll "https://".toList "wss://".toList url ++ "/api/websocket".toList
  else
    replaceAll "http://".toList "ws://".toList url ++ "/api/websocket".toList

/-- The full `websocket_url` initialisation: an explicitly provided
truthy (non-empty) value wins; None or the empty string trigger the
auto-derivation. -/
def configWebsocketUrl (url : List Char) (websocket_url : Option (List Char)) :
    List Char :=
  match websocket_url with
  | some w => if w.length ≠ 0 then w else deriveWsUrl url
  | none => deriveWsUrl url

/-! ## Theorems -/

/-- The identifiers issued by N sequential `_get_next_message_id`
calls from an arbitrary state are the N integers following the stored
counter. -/
theorem issueIds_fst (st : ClientState) (N : Nat) :
    (issueIds st N).1 = List.range' (st.message_id + 1) N := by
  induction N generalizing st with
  | zero => rfl
  | succ n ih =>
    simp [issueIds, getNextMessageId, ih, List.range'_succ]

/-- C9: within one client lifetime the Message Correlator never
repeats an identifier: for every N, N sequential calls of
`_get_next_message_id` on a freshly constructed client return exactly
the sequence 1, 2, ..., N. -/
theorem correlator_counts_from_one (N : Nat) :
    (issueIds initClient N).1 = List.range' 1 N :=
  issueIds_fst initClient N

/-- C1 counterexample: after two identifiers are issued and a fresh
streaming channel is then opened successfully, the next identifier is
3, not 1 — `connect_websocket` does not reset the counter. -/
theorem correlator_not_reset_on_reconnect :
    (getNextMessageId
      (connectWebsocket (issueIds initClient 2).2 (.ok ())
        (.ok { rtype := some "auth_ok" })).2).1 = 3 ∧ (3 : Nat) ≠ 1 := by
  decide

/-- C1 amended: the correlator counter is scoped to client lifetime,
not connection lifetime: `connect_websocket` (whatever its outcome)
leaves the counter unchanged, so the next identifier issued after a
fresh channel open is one more than the last identifier issued before
it, not 1. -/
theorem connectWebsocket_preserves_counter (st : ClientState)
    (conn : Except String Unit) (recv : Except String AuthResponse) :
    ((connectWebsocket st conn recv).2).message_id = st.message_id ∧
    (getNextMessageId (connectWebsocket st conn recv).2).1 = st.message_id + 1 := by
  cases conn with
  | error e => simp [connectWebsocket, getNextMessageId]
  | ok u =>
    cases recv with
    | error e => simp [connectWebsocket, getNextMessageId]
    | ok resp =>
      by_cases h : resp.rtype = some "auth_ok" <;>
        simp [connectWebsocket, getNextMessageId, h]

/-- C2: when the websocket connects but the first inbound frame after
the authentication frame has a type other than "auth_ok",
`connect_websocket` raises to its caller and leaves the websocket
attribute None (the channel is never Ready). -/
theorem connectWebsocket_auth_failure (st : ClientState) (resp : AuthResponse)
    (h : resp.rtype ≠ some "auth_ok") :
    (∃ e, (connectWebsocket st (.ok ()) (.ok resp)).1 = .error e) ∧
    ((connectWebsocket st (.ok ()) (.ok resp)).2).websocket = none := by
  refine ⟨⟨"WebSocket auth failed", ?_⟩, ?_⟩ <;> simp [connectWebsocket, h]

/-- Witness for C2 at a concrete auth_invalid response. -/
theorem connectWebsocket_auth_failure_witness :
    (∃ e, (connectWebsocket initClient (.ok ())
      (.ok { rtype := some "auth_invalid" })).1 = .error e) ∧
    ((connectWebsocket initClient (.ok ())
      (.ok { rtype := some "auth_invalid" })).2).websocket = none :=
  connectWebsocket_auth_failure initClient { rtype := some "auth_invalid" } (by decide)

/-- C6: `disconnect` never raises (it is a total transition), leaves
the client with both handles cleared, and is idempotent: a second call
is a no-op, and on a never-connected client (both handles already
None) it is a no-op as well. -/
theorem disconnect_idempotent (st : ClientState) :
    (disconnect st).session = none ∧ (disconnect st).websocket = none ∧
    disconnect (disconnect st) = disconnect st ∧
    disconnect initClient = initClient := by
  cases st with
  | mk s w l m =>
    cases s <;> cases w <;> simp [disconnect, initClient]

/-- The notify loop invokes exactly the given callbacks, in order,
each with the dispatched event, whatever the raising behaviour. -/
theorem notifyListeners_trace (raises : Nat → Bool) (ev : Event) (cs : List Nat) :
    (notifyListeners raises ev cs).1 = cs.map (fun c => (c, ev)) := by
  induction cs with
  | nil => rfl
  | cons c rest ih => simp [notifyListeners, ih]

/-- The notify loop catches and logs exactly the raising callbacks. -/
theorem notifyListeners_log (raises : Nat → Bool) (ev : Event) (cs : List Nat) :
    (notifyListeners raises ev cs).2 = cs.filter (fun c => raises c) := by
  induction cs with
  | nil => rfl
  | cons c rest ih =>
    by_cases h : raises c <;> simp [notifyListeners, callListener, ih, h]

/-- Processing a frame of type "event" yields the invocation trace of
exactly the callbacks registered for its event type, in order, each
with the event. -/
theorem handleFrame_trace (ls : List (String × List Nat)) (raises : Nat → Bool)
    (ev : Event) (t : String) (h : ev.event_type = some t) :
    (handleFrame ls raises { ftype := some "event", event := some ev }).1
      = ((lookupKey t ls).getD []).map (fun c => (c, ev)) := by
  cases hl : lookupKey t ls <;>
    simp [handleFrame, h, hl, notifyListeners_trace]

/-- C3: dispatching an inbound frame of type "event" carrying event
type T invokes exactly the callbacks registered for T, in registration
order, each exactly once with the event as payload — so callbacks
registered for other types are never invoked, and an event type with
no registry entry is silently dropped (empty invocation trace). -/
theorem dispatch_exact (ls : List (String × List Nat)) (raises : Nat → Bool)
    (ev : Event) (t : String) (h : ev.event_type = some t) :
    (handleFrame ls raises { ftype := some "event", event := some ev }).1
      = ((lookupKey t ls).getD []).map (fun c => (c, ev)) ∧
    (lookupKey t ls = none →
      (handleFrame ls raises { ftype := some "event", event := some ev }).1 = []) := by
  refine ⟨handleFrame_trace ls raises ev t h, fun hl => ?_⟩
  simp [handleFrame_trace ls raises ev t h, hl]

/-- Witness for C3 at a concrete registry and event. -/
theorem dispatch_exact_witness :
    (handleFrame [("t", [4, 5]), ("u", [9])] (fun _ => false)
      { ftype := some "event",
        event := some { event_type := some "t", payload := 3 } }).1
      = ((lookupKey "t" [("t", [4, 5]), ("u", [9])]).getD []).map
          (fun c => (c, { event_type := some "t", payload := 3 })) ∧
    (lookupKey "t" [("t", [4, 5]), ("u", [9])] = none →
      (handleFrame [("t", [4, 5]), ("u", [9])] (fun _ => false)
        { ftype := some "event",
          event := some { event_type := some "t", payload := 3 } }).1 = []) :=
  dispatch_exact [("t", [4, 5]), ("u", [9])] (fun _ => false)
    { event_type := some "t", payload := 3 } "t" rfl

/-- C4: listener failures are isolated. With three callbacks
registered for one type — whatever the raising behaviour, so in
particular when the second always raises — one dispatch still invokes
all three in order (the side effects of the first and third are
observed), the raising callbacks' errors are caught and logged, and
the listen loop is not terminated: the remaining frames of the inbound
sequence are still processed. -/
theorem listener_isolation (raises : Nat → Bool) (l1 l2 l3 : Nat) (t : String)
    (ev : Event) (h : ev.event_type = some t) (fs : List InboundFrame) :
    let R3 := addEventListener (addEventListener (addEventListener [] t l1) t l2) t l3
    let frame : InboundFrame := { ftype := some "event", event := some ev }
    (handleFrame R3 raises frame).1 = [(l1, ev), (l2, ev), (l3, ev)] ∧
    (handleFrame R3 raises frame).2 = [l1, l2, l3].filter (fun c => raises c) ∧
    (listenLoop R3 raises (frame :: fs)).1
      = [(l1, ev), (l2, ev), (l3, ev)] ++ (listenLoop R3 raises fs).1 := by
  intro R3 frame
  have hR : R3 = [(t, [l1, l2, l3])] := by
    simp [R3, addEventListener, hasKey, lookupKey, appendAt]
  have h1 : (handleFrame R3 raises frame).1 = [(l1, ev), (l2, ev), (l3, ev)] := by
    simp [hR, handleFrame, frame, h, lookupKey, notifyListeners_trace]
  refine ⟨h1, ?_, ?_⟩
  · simp [hR, handleFrame, frame, h, lookupKey, notifyListeners_log]
  · simp [listenLoop, h1]

/-- Witness for C4: three concrete listeners of which the second
always raises; both remaining listeners are still invoked and the loop
goes on to the next frame. -/
theorem listener_isolation_witness :
    (handleFrame (addEventListener (addEventListener (addEventListener [] "x" 1) "x" 2) "x" 3)
      (fun c => c == 2)
      { ftype := some "event", event := some { event_type := some "x", payload := 0 } }).1
      = [(1, { event_type := some "x", payload := 0 }),
         (2, { event_type := some "x", payload := 0 }),
         (3, { event_type := some "x", payload := 0 })] ∧
    (handleFrame (addEventListener (addEventListener (addEventListener [] "x" 1) "x" 2) "x" 3)
      (fun c => c == 2)
      { ftype := some "event", event := some { event_type := some "x", payload := 0 } }).2
      = [1, 2, 3].filter (fun c => c == 2) ∧
    (listenLoop (addEventListener (addEventListener (addEventListener [] "x" 1) "x" 2) "x" 3)
      (fun c => c == 2)
      ([{ ftype := some "event", event := some { event_type := some "x", payload := 0 } },
        { ftype := some "event", event := some { event_type := some "x", payload := 0 } }])).1
      = [(1, { event_type := some "x", payload := 0 }),
         (2, { event_type := some "x", payload := 0 }),
         (3, { event_type := some "x", payload := 0 })] ++
        (listenLoop (addEventListener (addEventListener (addEventListener [] "x" 1) "x" 2) "x" 3)
          (fun c => c == 2)
          [{ ftype := some "event", event := some { event_type := some "x", payload := 0 } }]).1 :=
  listener_isolation (fun c => c == 2) 1 2 3 "x"
    { event_type := some "x", payload := 0 } rfl
    [{ ftype := some "event", event := some { event_type := some "x", payload := 0 } }]

/-- Reading back the key just appended to in the listener dict: the
value gains the appended callback. -/
theorem lookupKey_appendAt (t : String) (c : Nat) (ls : List (String × List Nat)) :
    lookupKey t (appendAt t c ls) = (lookupKey t ls).map (fun v => v ++ [c]) := by
  induction ls with
  | nil => rfl
  | cons p rest ih =>
    obtain ⟨k, v⟩ := p
    by_cases h : k = t <;> simp [appendAt, lookupKey, h, ih]

/-- Looking up a key absent from the front part of the dict finds the
entry appended at the end. -/
theorem lookupKey_append_self (t : String) (v : List Nat)
    (ls : List (String × List Nat)) (h : lookupKey t ls = none) :
    lookupKey t (ls ++ [(t, v)]) = some v := by
  induction ls with
  | nil => simp [lookupKey]
  | cons p rest ih =>
    obtain ⟨k, w⟩ := p
    by_cases hk : k = t
    · simp [lookupKey, hk] at h
    · simp only [lookupKey, List.cons_append, if_neg hk] at h ⊢
      exact ih h

/-- `add_event_listener` appends the callback to the (possibly freshly
created) entry of its event type. -/
theorem lookupKey_addEventListener (ls : List (String × List Nat)) (t : String)
    (c : Nat) :
    lookupKey t (addEventListener ls t c)
      = some ((lookupKey t ls).getD [] ++ [c]) := by
  unfold addEventListener hasKey
  cases hl : lookupKey t ls with
  | some v => simp [hl, lookupKey_appendAt]
  | none => simp [hl, lookupKey_appendAt, lookupKey_append_self t [] ls hl]

/-- Counting a pair in the trace of a per-callback map is counting the
callback. -/
theorem count_pair_map (ev : Event) (c : Nat) (l : List Nat) :
    (l.map (fun x => (x, ev))).count (c, ev) = l.count c := by
  induction l with
  | nil => rfl
  | cons x rest ih => simp [List.count_cons, ih, Prod.ext_iff]

/-- C8: registration performs no de-duplication: registering the same
callback twice for the same event type (the callback not being
registered for that type before) leaves two entries for it in the
registry, and a subsequent dispatch of an event of that type invokes
it exactly twice. -/
theorem double_registration (ls : List (String × List Nat)) (t : String)
    (c : Nat) (raises : Nat → Bool) (ev : Event)
    (h : ev.event_type = some t) (hc : c ∉ (lookupKey t ls).getD []) :
    ((lookupKey t (addEventListener (addEventListener ls t c) t c)).getD []).count c = 2 ∧
    ((handleFrame (addEventListener (addEventListener ls t c) t c) raises
        { ftype := some "event", event := some ev }).1).count (c, ev) = 2 := by
  have h2 : lookupKey t (addEventListener (addEventListener ls t c) t c)
      = some ((lookupKey t ls).getD [] ++ [c] ++ [c]) := by
    rw [lookupKey_addEventListener, lookupKey_addEventListener]
    simp
  refine ⟨by simp [h2, List.count_eq_zero.mpr hc], ?_⟩
  rw [handleFrame_trace _ raises ev t h, h2]
  simp [count_pair_map, List.count_eq_zero.mpr hc]

/-- Witness for C8: a fresh registry, one callback registered twice
for one type, dispatched once. -/
theorem double_registration_witness :
    ((lookupKey "t" (addEventListener (addEventListener [] "t" 5) "t" 5)).getD []).count 5 = 2 ∧
    ((handleFrame (addEventListener (addEventListener [] "t" 5) "t" 5) (fun _ => false)
        { ftype := some "event",
          event := some { event_type := some "t", payload := 0 } }).1).count
      (5, { event_type := some "t", payload := 0 }) = 2 :=
  double_registration [] "t" 5 (fun _ => false)
    { event_type := some "t", payload := 0 } rfl (by decide)

/-- C5: against a failing transport or a non-success (400+) status,
every Synchronous Channel operation absorbs the failure and returns
its type-appropriate sentinel instead of raising: `get_states` the
empty list, `get_state` None, `call_service` False. -/
theorem sync_failure_sentinels (st : ClientState)
    (outS : HttpOutcome (List StateObj)) (outG : HttpOutcome StateObj)
    (outC : HttpOutcome Unit) (f : Option String)
    (hS : isFailure outS = true) (hG : isFailure outG = true)
    (hC : isFailure outC = true) :
    getStates st outS f = [] ∧ getState st outG = none ∧
    callService st outC = false := by
  cases hs : st.session with
  | none =>
    refine ⟨?_, ?_, ?_⟩ <;> simp [getStates, getState, callService, sessionRequest, hs]
  | some u =>
    refine ⟨?_, ?_, ?_⟩
    · cases outS with
      | transportError e => simp [getStates, sessionRequest, hs]
      | response s b =>
        simp only [isFailure, decide_eq_true_eq] at hS
        simp [getStates, sessionRequest, hs, raiseForStatus, hS]
    · cases outG with
      | transportError e => simp [getState, sessionRequest, hs]
      | response s b =>
        simp only [isFailure, decide_eq_true_eq] at hG
        have h200 : s ≠ 200 := by omega
        have h404 : s = 404 ∨ s ≠ 404 := em _
        rcases h404 with h404 | h404 <;>
          simp [getState, sessionRequest, hs, raiseForStatus, hG, h200, h404]
    · cases outC with
      | transportError e => simp [callService, sessionRequest, hs]
      | response s b =>
        simp only [isFailure, decide_eq_true_eq] at hC
        simp [callService, sessionRequest, hs, raiseForStatus, hC]

/-- Witness for C5: a transport error on the states query, a 500 on
the single-entity query, a 503 on the service call. -/
theorem sync_failure_sentinels_witness :
    getStates (connect initClient) (.transportError "connection refused") none = [] ∧
    getState (connect initClient)
      (.response 500 { entity_id := some "light.k", friendly_name := "" }) = none ∧
    callService (connect initClient) (.response 503 ()) = false :=
  sync_failure_sentinels (connect initClient)
    (.transportError "connection refused")
    (.response 500 { entity_id := some "light.k", friendly_name := "" })
    (.response 503 ()) none (by decide) (by decide) (by decide)

/-- C10: on a client never connected (the session handle is None), the
attribute access on the absent session fails inside the try blocks,
the broad except absorbs it, and each Synchronous Channel operation
returns its sentinel — whatever outcome the transport would have
produced. -/
theorem no_session_sentinels (st : ClientState) (h : st.session = none)
    (outS : HttpOutcome (List StateObj)) (outG : HttpOutcome StateObj)
    (outC : HttpOutcome Unit) (f : Option String) :
    getStates st outS f = [] ∧ getState st outG = none ∧
    callService st outC = false := by
  refine ⟨?_, ?_, ?_⟩ <;> simp [getStates, getState, callService, sessionRequest, h]

/-- Witness for C10: the freshly constructed client, even against
outcomes that would have succeeded. -/
theorem no_session_sentinels_witness :
    getStates initClient (.response 200 []) none = [] ∧
    getState initClient
      (.response 200 { entity_id := some "light.k", friendly_name := "" }) = none ∧
    callService initClient (.response 200 ()) = false :=
  no_session_sentinels initClient rfl (.response 200 [])
    (.response 200 { entity_id := some "light.k", friendly_name := "" })
    (.response 200 ()) none

/-- A list is a prefix of itself followed by anything. -/
theorem isPrefixOf_append_self (p v : List Char) : p.isPrefixOf (p ++ v) = true := by
  induction p with
  | nil => simp [List.isPrefixOf]
  | cons a as ih => simp [List.isPrefixOf, ih]

/-- The replace scanner leaves a list with no occurrence of the
pattern unchanged, whatever the fuel. -/
theorem replaceAllF_no_occur (old new : List Char) (fuel : Nat) (t : List Char)
    (h : containsSub old t = false) : replaceAllF old new fuel t = t := by
  induction fuel generalizing t with
  | zero => rfl
  | succ k ih =>
    cases t with
    | nil => rfl
    | cons c rest =>
      have h' : old.isPrefixOf (c :: rest) = false ∧ containsSub old rest = false := by
        simpa [containsSub] using h
      simp only [replaceAllF]
      rw [if_neg (by simp [h'.1]), ih rest h'.2]

/-- Replacing a nonempty pattern in a list that starts with it and
contains no further occurrence swaps exactly the leading pattern. -/
theorem replaceAll_strip (old new v : List Char) (h : old ≠ [])
    (hocc : containsSub old v = false) :
    replaceAll old new (old ++ v) = new ++ v := by
  cases old with
  | nil => exact absurd rfl h
  | cons o os =>
    have hpre : (o :: os).isPrefixOf ((o :: os) ++ v) = true :=
      isPrefixOf_append_self _ _
    show replaceAllF (o :: os) new ((o :: os) ++ v).length ((o :: os) ++ v) = new ++ v
    have hlen : ((o :: os) ++ v).length = (os ++ v).length + 1 := by simp
    rw [hlen]
    simp only [replaceAllF, List.cons_append]
    rw [if_pos ⟨List.cons_ne_nil o os, hpre⟩]
    simp only [List.length_cons, List.drop_succ_cons, List.drop_left]
    rw [replaceAllF_no_occur _ _ _ _ hocc]

/-- C7 counterexample: for the base address "http://a/?x=http://b" the
code substitutes every occurrence of "http://", not only the scheme,
so the derived streaming address differs from the scheme-only
replacement the claim describes. -/
theorem websocket_url_not_scheme_only :
    configWebsocketUrl ("http://a/?x=http://b".toList) none
      = "ws://a/?x=ws://b/api/websocket".toList ∧
    configWebsocketUrl ("http://a/?x=http://b".toList) none
      ≠ "ws://a/?x=http://b/api/websocket".toList := by decide

/-- C7 amended: when no streaming address is overridden and the base
address is the scheme "https://" (resp. "http://") followed by a
remainder containing no further occurrence of that scheme substring,
the derived streaming address is the scheme-swapped base address with
"/api/websocket" appended (in general the code substitutes every
occurrence of the scheme substring, not only the leading one). -/
theorem websocket_url_scheme_swap (v : List Char) :
    (containsSub ("https://".toList) v = false →
      configWebsocketUrl ("https://".toList ++ v) none
        = ("wss://".toList ++ v) ++ "/api/websocket".toList) ∧
    (("https://".toList).isPrefixOf ("http://".toList ++ v) = false →
     containsSub ("http://".toList) v = false →
      configWebsocketUrl ("http://".toList ++ v) none
        = ("ws://".toList ++ v) ++ "/api/websocket".toList) := by
  constructor
  · intro hocc
    show deriveWsUrl _ = _
    unfold deriveWsUrl
    rw [if_pos (isPrefixOf_append_self _ _)]
    rw [replaceAll_strip _ _ _ (by decide) hocc]
  · intro hpre hocc
    show deriveWsUrl _ = _
    unfold deriveWsUrl
    rw [if_neg (by simp [hpre])]
    rw [replaceAll_strip _ _ _ (by decide) hocc]

/-- Witness for C7 amended at the two addresses named by the
specification. -/
theorem websocket_url_scheme_swap_witness :
    configWebsocketUrl ("https://".toList ++ "example.com".toList) none
      = ("wss://".toList ++ "example.com".toList) ++ "/api/websocket".toList ∧
    configWebsocketUrl ("http://".toList ++ "localhost:8123".toList) none
      = ("ws://".toList ++ "localhost:8123".toList) ++ "/api/websocket".toList :=
  ⟨(websocket_url_scheme_swap ("example.com".toList)).1 (by decide),
   (websocket_url_scheme_swap ("localhost:8123".toList)).2 (by decide) (by decide)⟩

end HAClient
